import Mathlib

/-!
Shallow embedding of `neonvm/apis/neonvm/v1/virtualmachine_webhook.go`:
the validation webhook for the `VirtualMachine` resource (`ValidateCreate`,
`ValidateUpdate`, `ValidateDelete`), together with the parts of the data
model the webhook reads.

Modelling conventions:
* Go numeric fields (`vmapi.MilliCPU`, i.e. `uint32`, and the `int32`
  memory-slot counts) are embedded as `Int`.  The webhook only compares
  these values (`<`, `>`), never does arithmetic on them, so the order
  embedding is exact on representable values.
* Go slices are embedded as `List`; a nil slice and an empty slice are
  identified (no verified property distinguishes them).
* Go `len` on a string counts bytes, embedded as `String.utf8ByteSize`.
* Go pointers that can be nil (`*GuestSettings`, `*bool`, ...) are
  embedded as `Option`; a nil-pointer dereference is modelled by the
  `UpdateResult.panics` outcome.
* Each `fmt.Errorf`/`errors.New` site is embedded as a constructor of
  `VmError`; `VmError.message` renders the exact Go format string.
-/

/-- CPU allocation bounds, `vm.Spec.Guest.CPUs` (values are `MilliCPU`). -/
structure CPUs where
  Min : Int
  Max : Int
  Use : Int
deriving DecidableEq, Repr

/-- Memory slot bounds, `vm.Spec.Guest.MemorySlots` (values are `int32`). -/
structure MemorySlots where
  Min : Int
  Max : Int
  Use : Int
deriving DecidableEq, Repr

/-- The memory provider tag (a two-valued string enum in the source). -/
inductive MemoryProvider where
  | DIMMSlots
  | VirtioMem
deriving DecidableEq, Repr

/-- A guest port declaration; the webhook only inspects `Name`. -/
structure Port where
  Name : String
  Port : Int
  Protocol : String
deriving DecidableEq, Repr

/-- The root-disk descriptor; opaque to the webhook beyond deep equality. -/
structure RootDisk where
  Image : String
  Size : Int
deriving DecidableEq, Repr

/-- An environment variable entry. -/
structure EnvVar where
  Name : String
  Value : String
deriving DecidableEq, Repr

/-- The normalized swap descriptor (`SwapInfo`). -/
structure SwapInfo where
  Size : Int
deriving DecidableEq, Repr

/-- A possibly-absent normalized swap descriptor (`*SwapInfo` in Go). -/
abbrev SwapDescriptor := Option SwapInfo

/-- Guest settings: the legacy swap size (`Swap`, a `*resource.Quantity`)
and the structured swap descriptor (`SwapInfo`), each optional. -/
structure GuestSettings where
  Swap : Option Int
  SwapInfo : Option SwapInfo
deriving DecidableEq, Repr

/-- A disk attached to the VM; the webhook only inspects `Name`, the rest
of the disk spec is an opaque payload compared by deep equality. -/
structure Disk where
  Name : String
  MountPath : String
deriving DecidableEq, Repr

/-- Pod resource requests/limits; opaque to the webhook beyond deep
equality. -/
structure PodResources where
  Requests : List (String × Int)
  Limits : List (String × Int)
deriving DecidableEq, Repr

/-- The guest section of a `VirtualMachineSpec`. -/
structure Guest where
  CPUs : CPUs
  MemorySlots : MemorySlots
  MemoryProvider : Option MemoryProvider
  Ports : List Port
  RootDisk : RootDisk
  Command : List String
  Args : List String
  Env : List EnvVar
  Settings : Option GuestSettings
deriving DecidableEq, Repr

/-- The `VirtualMachineSpec` fields read by the webhook. -/
structure VirtualMachineSpec where
  Guest : Guest
  Disks : List Disk
  PodResources : PodResources
  EnableAcceleration : Option Bool
  EnableSSH : Option Bool
  InitScript : String
deriving DecidableEq, Repr

/-- A `VirtualMachine` object (metadata is irrelevant to the webhook). -/
structure VirtualMachine where
  Spec : VirtualMachineSpec
deriving DecidableEq, Repr

/-- One constructor per error-return site of the webhook source; the
exact Go message text is rendered by `VmError.message`. -/
inductive VmError where
  | cpuUseBelowMin (use min : Int)
  | cpuUseAboveMax (use max : Int)
  | guestDelegated (msg : String)
  | memorySlotsUseBelowMin (use min : Int)
  | memorySlotsUseAboveMax (use max : Int)
  | reservedDiskName (name : String)
  | diskNameTooLong (name : String)
  | reservedPortName
  | conflictingSwap
  | immutableField (path : String)
  | swapImmutable
  | updCpuUseBelowMin (use min : Int)
  | updCpuUseAboveMax (use max : Int)
  | updMemorySlotsUseBelowMin (use min : Int)
  | updMemorySlotsUseAboveMax (use max : Int)
deriving DecidableEq, Repr

/-- The exact message text produced at each error site of the source. -/
def VmError.message : VmError → String
  | .cpuUseBelowMin u m =>
      ".spec.guest.cpus.use (" ++ toString u ++ ") should be greater than or equal to the .spec.guest.cpus.min (" ++ toString m ++ ")"
  | .cpuUseAboveMax u m =>
      ".spec.guest.cpus.use (" ++ toString u ++ ") should be less than or equal to the .spec.guest.cpus.max (" ++ toString m ++ ")"
  | .guestDelegated msg => ".spec.guest: " ++ msg
  | .memorySlotsUseBelowMin u m =>
      ".spec.guest.memorySlots.use (" ++ toString u ++ ") should be greater than or equal to the .spec.guest.memorySlots.min (" ++ toString m ++ ")"
  | .memorySlotsUseAboveMax u m =>
      ".spec.guest.memorySlots.use (" ++ toString u ++ ") should be less than or equal to the .spec.guest.memorySlots.max (" ++ toString m ++ ")"
  | .reservedDiskName name => "\x27" ++ name ++ "\x27 is reserved for .spec.disks[].name"
  | .diskNameTooLong name => "disk name \x27" ++ name ++ "\x27 too long, should be less than or equal to 32"
  | .reservedPortName => "\x27qmp\x27 is reserved name for .spec.guest.ports[].name"
  | .conflictingSwap => "cannot have both \x27swap\x27 and \x27swapInfo\x27 enabled"
  | .immutableField path => path ++ " is immutable"
  | .swapImmutable => ".spec.guest.settings.{swap,swapInfo} is immutable"
  | .updCpuUseBelowMin u m =>
      ".cpus.use (" ++ toString u ++ ") should be greater than or equal to the .cpus.min (" ++ toString m ++ ")"
  | .updCpuUseAboveMax u m =>
      ".cpus.use (" ++ toString u ++ ") should be less than or equal to the .cpus.max (" ++ toString m ++ ")"
  | .updMemorySlotsUseBelowMin u m =>
      ".memorySlots.use (" ++ toString u ++ ") should be greater than or equal to the .memorySlots.min (" ++ toString m ++ ")"
  | .updMemorySlotsUseAboveMax u m =>
      ".memorySlots.use (" ++ toString u ++ ") should be less than or equal to the .memorySlots.max (" ++ toString m ++ ")"

/-- Modelled from the spec: `GuestSettings.WithoutSwapFields` is not among
the sources; the spec describes it as "a projection that strips
`Swap`/`SwapInfo` before comparison". -/
def GuestSettings.WithoutSwapFields (s : GuestSettings) : GuestSettings :=
  { s with Swap := none, SwapInfo := none }

/-- Modelled from the spec: `GuestSettings.GetSwapInfo` (the swap-descriptor
derivation) is not among the sources; the spec describes it as deriving
"the normalized, validated representation of swap configuration ... from
either of two mutually exclusive raw input fields", failing on
"conflicting legacy+structured swap fields". -/
def GuestSettings.GetSwapInfo (s : GuestSettings) : Except VmError SwapDescriptor :=
  match s.Swap, s.SwapInfo with
  | some _, some _ => .error .conflictingSwap
  | some size, none => .ok (some { Size := size })
  | none, si => .ok si

/-- First two checks of `ValidateCreate`: `.spec.guest.cpus.use` against
`.spec.guest.cpus.min` / `.spec.guest.cpus.max`. -/
def createCpuRangeCheck (c : CPUs) : Option VmError :=
  if c.Use < c.Min then some (.cpuUseBelowMin c.Use c.Min)
  else if c.Use > c.Max then some (.cpuUseAboveMax c.Use c.Max)
  else none

/-- `ValidateCreate` check of `.spec.guest.memorySlots.use` against
`.spec.guest.memorySlots.min` / `.spec.guest.memorySlots.max`. -/
def createMemorySlotsRangeCheck (m : MemorySlots) : Option VmError :=
  if m.Use < m.Min then some (.memorySlotsUseBelowMin m.Use m.Min)
  else if m.Use > m.Max then some (.memorySlotsUseAboveMax m.Use m.Max)
  else none

/-- The reserved disk names of `ValidateCreate`. -/
def reservedDiskNames : List String :=
  ["virtualmachineimages",
   "rootdisk",
   "runtime",
   "swapdisk",
   "sysfscgroup",
   "containerdsock",
   "ssh-privatekey",
   "ssh-publickey",
   "ssh-authorized-keys"]

/-- The `for _, disk := range r.Spec.Disks` loop of `ValidateCreate`:
reject a reserved name, then a name longer than 32 bytes. -/
def createDiskNameCheck : List Disk → Option VmError
  | [] => none
  | disk :: rest =>
    if reservedDiskNames.contains disk.Name then
      some (.reservedDiskName disk.Name)
    else if disk.Name.utf8ByteSize > 32 then
      some (.diskNameTooLong disk.Name)
    else createDiskNameCheck rest

/-- The `for _, port := range r.Spec.Guest.Ports` loop of `ValidateCreate`:
reject a port named `qmp`. -/
def createPortNameCheck : List Port → Option VmError
  | [] => none
  | port :: rest =>
    if port.Name.utf8ByteSize ≠ 0 ∧ port.Name = "qmp" then
      some .reservedPortName
    else createPortNameCheck rest

/-- Last check of `ValidateCreate`: at most one of `Settings.Swap` and
`Settings.SwapInfo` may be set. -/
def createSwapCheck : Option GuestSettings → Option VmError
  | some settings =>
    if settings.Swap.isSome ∧ settings.SwapInfo.isSome then
      some .conflictingSwap
    else none
  | none => none

/-- `ValidateCreate` check delegated to `Guest.ValidateForMemoryProvider`
when a memory provider is set; the delegate itself is an external
collaborator, so it is a parameter (`memCheck`), and its error is wrapped
with the `.spec.guest: ` prefix exactly as in the source. -/
def createMemoryProviderCheck (memCheck : MemoryProvider → Guest → Option String)
    (g : Guest) : Option VmError :=
  match g.MemoryProvider with
  | some p => (memCheck p g).map (fun msg => .guestDelegated msg)
  | none => none

/-- `VirtualMachine.ValidateCreate`: the checks run in source order, the
first failure being returned (`return nil, err` at each site); the
warnings component is `nil` at every return site.  `memCheck` stands for
the external `ValidateForMemoryProvider` collaborator. -/
def ValidateCreate (memCheck : MemoryProvider → Guest → Option String)
    (r : VirtualMachine) : List String × Option VmError :=
  match createCpuRangeCheck r.Spec.Guest.CPUs <|>
        createMemoryProviderCheck memCheck r.Spec.Guest <|>
        createMemorySlotsRangeCheck r.Spec.Guest.MemorySlots <|>
        createDiskNameCheck r.Spec.Disks <|>
        createPortNameCheck r.Spec.Guest.Ports <|>
        createSwapCheck r.Spec.Guest.Settings with
  | some e => ([], some e)
  | none => ([], none)

/-- The dynamic (`any`-typed) value an immutable-field getter returns; one
constructor per Go dynamic type occurring in the table, since
`reflect.DeepEqual` on `any` values of distinct dynamic types is false. -/
inductive FieldValue where
  | int (n : Int)
  | optMemoryProvider (p : Option MemoryProvider)
  | ports (l : List Port)
  | rootDisk (d : RootDisk)
  | strings (l : List String)
  | envs (l : List EnvVar)
  | optSettings (s : Option GuestSettings)
  | disks (l : List Disk)
  | podResources (p : PodResources)
  | optBool (b : Option Bool)
  | str (s : String)
deriving DecidableEq, Repr

/-- The `immutableFields` table of `ValidateUpdate`: `(fieldName, getter)`
pairs, in source order.  The `.spec.guest.settings` getter masks the swap
fields (`WithoutSwapFields`) on a non-nil settings object and returns the
typed nil otherwise, exactly as in the source. -/
def immutableFields : List (String × (VirtualMachine → FieldValue)) :=
  [(".spec.guest.cpus.min", fun v => .int v.Spec.Guest.CPUs.Min),
   (".spec.guest.cpus.max", fun v => .int v.Spec.Guest.CPUs.Max),
   (".spec.guest.memorySlots.min", fun v => .int v.Spec.Guest.MemorySlots.Min),
   (".spec.guest.memorySlots.max", fun v => .int v.Spec.Guest.MemorySlots.Max),
   (".spec.guest.memoryProvider", fun v => .optMemoryProvider v.Spec.Guest.MemoryProvider),
   (".spec.guest.ports", fun v => .ports v.Spec.Guest.Ports),
   (".spec.guest.rootDisk", fun v => .rootDisk v.Spec.Guest.RootDisk),
   (".spec.guest.command", fun v => .strings v.Spec.Guest.Command),
   (".spec.guest.args", fun v => .strings v.Spec.Guest.Args),
   (".spec.guest.env", fun v => .envs v.Spec.Guest.Env),
   (".spec.guest.settings", fun v =>
     match v.Spec.Guest.Settings with
     | none => .optSettings none
     | some s => .optSettings (some s.WithoutSwapFields)),
   (".spec.disks", fun v => .disks v.Spec.Disks),
   (".spec.podResources", fun v => .podResources v.Spec.PodResources),
   (".spec.enableAcceleration", fun v => .optBool v.Spec.EnableAcceleration),
   (".spec.enableSSH", fun v => .optBool v.Spec.EnableSSH),
   (".spec.initScript", fun v => .str v.Spec.InitScript)]

/-- Outcome of `ValidateUpdate`: either a normal return of
`(warnings, error)`, or a runtime panic (nil-pointer dereference). -/
inductive UpdateResult where
  | panics
  | returns (warnings : List String) (err : Option VmError)
deriving DecidableEq, Repr

/-- The `for _, info := range immutableFields` loop of `ValidateUpdate`.
`old` is the result of the (unchecked) type assertion `old.(*VirtualMachine)`;
evaluating a getter on a nil `before` dereferences a nil pointer, modelled
as the `none` outcome (panic).  `some (some e)` is an early error return,
`some none` means the loop finished with every field equal. -/
def immutableLoop : List (String × (VirtualMachine → FieldValue)) → VirtualMachine →
    Option VirtualMachine → Option (Option VmError)
  | [], _, _ => some none
  | info :: rest, r, old =>
    match old with
    | none => none
    | some before =>
      if info.2 r ≠ info.2 before then some (some (.immutableField info.1))
      else immutableLoop rest r old

/-- `ValidateUpdate` re-check of `.spec.guest.cpus.use` (error paths use
the shorter `.cpus.*` field names of the source). -/
def updateCpuRangeCheck (c : CPUs) : Option VmError :=
  if c.Use < c.Min then some (.updCpuUseBelowMin c.Use c.Min)
  else if c.Use > c.Max then some (.updCpuUseAboveMax c.Use c.Max)
  else none

/-- `ValidateUpdate` re-check of `.spec.guest.memorySlots.use`. -/
def updateMemorySlotsRangeCheck (m : MemorySlots) : Option VmError :=
  if m.Use < m.Min then some (.updMemorySlotsUseBelowMin m.Use m.Min)
  else if m.Use > m.Max then some (.updMemorySlotsUseAboveMax m.Use m.Max)
  else none

/-- The final step of `ValidateUpdate`: both range re-checks on the new
spec, first failure returned. -/
def updateUseChecks (r : VirtualMachine) : Option VmError :=
  updateCpuRangeCheck r.Spec.Guest.CPUs <|>
  updateMemorySlotsRangeCheck r.Spec.Guest.MemorySlots

/-- The swap-transition step of `ValidateUpdate` followed by the use
re-checks.  A new-side derivation error is returned; an old-side
derivation error is swallowed (self-healing); otherwise the two
descriptors must be deeply equal.  Dereferencing a nil `before` or nil
old settings is a panic. -/
def updateSwapStep (r : VirtualMachine) (old : Option VirtualMachine) : UpdateResult :=
  match r.Spec.Guest.Settings with
  | none => .returns [] (updateUseChecks r)
  | some newSettings =>
    match newSettings.GetSwapInfo with
    | .error e => .returns [] (some e)
    | .ok newSwapInfo =>
      match old with
      | none => .panics
      | some before =>
        match before.Spec.Guest.Settings with
        | none => .panics
        | some oldSettings =>
          match oldSettings.GetSwapInfo with
          | .error _ => .returns [] (updateUseChecks r)
          | .ok oldSwapInfo =>
            if newSwapInfo ≠ oldSwapInfo then .returns [] (some .swapImmutable)
            else .returns [] (updateUseChecks r)

/-- `VirtualMachine.ValidateUpdate`: `r` is the new object, `old` the
result of the type assertion on the old one (`none` when the assertion
failed, i.e. `before == nil`).  Immutability table first, then the swap
transition, then the use re-checks; the warnings component is `nil` at
every return site. -/
def ValidateUpdate (r : VirtualMachine) (old : Option VirtualMachine) : UpdateResult :=
  match immutableLoop immutableFields r old with
  | none => .panics
  | some (some e) => .returns [] (some e)
  | some none => updateSwapStep r old

/-- `VirtualMachine.ValidateDelete`: no deletion validation. -/
def ValidateDelete (_r : VirtualMachine) : List String × Option VmError :=
  ([], none)

/-- A concrete well-formed VM used to instantiate the verified
properties: CPUs (min 1, max 4, use 2), memory slots (min 1, max 4,
use 2), no provider, no ports, no disks, no settings. -/
def sampleVM : VirtualMachine :=
  ⟨⟨⟨⟨1, 4, 2⟩, ⟨1, 4, 2⟩, none, [], ⟨"vm-ubuntu", 8⟩, [], [], [], none⟩,
    [], ⟨[], []⟩, none, none, ""⟩⟩

/-- `sampleVM` with a different guest section. -/
def withGuest (g : Guest) : VirtualMachine :=
  ⟨⟨g, sampleVM.Spec.Disks, sampleVM.Spec.PodResources,
    sampleVM.Spec.EnableAcceleration, sampleVM.Spec.EnableSSH,
    sampleVM.Spec.InitScript⟩⟩

/-- `sampleVM` with `.spec.guest.cpus.use` changed from 2 to 3. -/
def vmCpuUse3 : VirtualMachine :=
  withGuest { sampleVM.Spec.Guest with CPUs := ⟨1, 4, 3⟩ }

/-- `sampleVM` with `.spec.guest.cpus.max` changed from 4 to 8. -/
def vmCpuMax8 : VirtualMachine :=
  withGuest { sampleVM.Spec.Guest with CPUs := ⟨1, 8, 2⟩ }

/-- `sampleVM` with `.spec.guest.cpus.use` changed to 9 (above max). -/
def vmCpuUse9 : VirtualMachine :=
  withGuest { sampleVM.Spec.Guest with CPUs := ⟨1, 4, 9⟩ }

/-- `sampleVM` with a memory provider set. -/
def vmDimm : VirtualMachine :=
  withGuest { sampleVM.Spec.Guest with MemoryProvider := some .DIMMSlots }

/-- `sampleVM` with guest settings carrying a structured swap descriptor
of size 1024. -/
def vmSwapA : VirtualMachine :=
  withGuest { sampleVM.Spec.Guest with Settings := some ⟨none, some ⟨1024⟩⟩ }

/-- `sampleVM` with guest settings carrying a structured swap descriptor
of size 2048. -/
def vmSwapB : VirtualMachine :=
  withGuest { sampleVM.Spec.Guest with Settings := some ⟨none, some ⟨2048⟩⟩ }

/-- `sampleVM` with conflicting guest settings: both the legacy swap size
and the structured descriptor set. -/
def vmSwapConflict : VirtualMachine :=
  withGuest { sampleVM.Spec.Guest with Settings := some ⟨some 1024, some ⟨1024⟩⟩ }

/-- A disk whose name is 32 ASCII characters (32 UTF-8 bytes). -/
def disk32 : Disk := ⟨"abcdefghijklmnopqrstuvwxyzabcdef", "/volumes/d32"⟩

/-- A disk whose name is 32 characters but 64 UTF-8 bytes (each `£` is
two bytes). -/
def diskWide32 : Disk := ⟨"££££££££££££££££££££££££££££££££", "/volumes/wide"⟩

/-- A finished immutability loop means every tabulated getter agrees on
the two objects. -/
theorem immutableLoop_passed_all_eq {fields : List (String × (VirtualMachine → FieldValue))}
    {r b : VirtualMachine} (h : immutableLoop fields r (some b) = some none) :
    ∀ f ∈ fields, f.2 r = f.2 b := by
  induction fields with
  | nil => intro f hf; cases hf
  | cons info rest ih =>
    intro f hf
    unfold immutableLoop at h
    by_cases hc : info.2 r = info.2 b
    · rcases List.mem_cons.mp hf with hf | hf
      · subst hf; exact hc
      · exact ih (by simpa [hc] using h) f hf
    · simp [hc] at h

/-- If every tabulated getter agrees, the immutability loop finishes. -/
theorem immutableLoop_all_eq_passed {fields : List (String × (VirtualMachine → FieldValue))}
    {r b : VirtualMachine} (h : ∀ f ∈ fields, f.2 r = f.2 b) :
    immutableLoop fields r (some b) = some none := by
  induction fields with
  | nil => rfl
  | cons info rest ih =>
    unfold immutableLoop
    have hc : info.2 r = info.2 b := h info (List.mem_cons_self info rest)
    simp only [hc]
    simpa using ih (fun f hf => h f (List.mem_cons_of_mem info hf))

/-- The immutability loop always passes when old and new are the same
object. -/
theorem immutableLoop_refl (fields : List (String × (VirtualMachine → FieldValue)))
    (r : VirtualMachine) : immutableLoop fields r (some r) = some none :=
  immutableLoop_all_eq_passed (fun _ _ => rfl)

/-- If some tabulated getter disagrees, the loop stops at the first such
entry and reports that entry's field path. -/
theorem immutableLoop_first_diff {fields : List (String × (VirtualMachine → FieldValue))}
    {r b : VirtualMachine} (h : ∃ f ∈ fields, f.2 r ≠ f.2 b) :
    ∃ f ∈ fields, f.2 r ≠ f.2 b ∧
      immutableLoop fields r (some b) = some (some (.immutableField f.1)) := by
  induction fields with
  | nil => rcases h with ⟨f, hf, _⟩; cases hf
  | cons info rest ih =>
    by_cases hc : info.2 r = info.2 b
    · have h' : ∃ f ∈ rest, f.2 r ≠ f.2 b := by
        rcases h with ⟨f, hf, hne⟩
        rcases List.mem_cons.mp hf with hf | hf
        · subst hf; exact absurd hc hne
        · exact ⟨f, hf, hne⟩
      rcases ih h' with ⟨f, hf, hne, hloop⟩
      refine ⟨f, List.mem_cons_of_mem info hf, hne, ?_⟩
      unfold immutableLoop
      simpa [hc] using hloop
    · refine ⟨info, List.mem_cons_self info rest, hc, ?_⟩
      unfold immutableLoop
      simp [hc]

/-- The swap derivation only ever fails with the conflicting-swap error. -/
theorem getSwapInfo_error_eq {s : GuestSettings} {e : VmError}
    (h : s.GetSwapInfo = .error e) : e = .conflictingSwap := by
  unfold GuestSettings.GetSwapInfo at h
  rcases hs : s.Swap with _ | sz <;> rcases hi : s.SwapInfo with _ | si <;>
    simp [hs, hi] at h <;> try exact h.symm

/-- If the immutability loop passed and the new settings are non-nil,
the old settings are non-nil as well: the `.spec.guest.settings` getter
maps a nil settings pointer to the typed nil and a non-nil one to a
non-nil masked object, and the two never compare equal. -/
theorem settings_isSome_of_loop_passed {r b : VirtualMachine}
    (h : immutableLoop immutableFields r (some b) = some none)
    (hnew : r.Spec.Guest.Settings.isSome) : b.Spec.Guest.Settings.isSome := by
  have hmem :
      ((".spec.guest.settings", fun v : VirtualMachine =>
        match v.Spec.Guest.Settings with
        | none => FieldValue.optSettings none
        | some s => FieldValue.optSettings (some s.WithoutSwapFields)) :
        String × (VirtualMachine → FieldValue)) ∈ immutableFields := by
    unfold immutableFields
    simp
  have heq := immutableLoop_passed_all_eq h _ hmem
  simp only at heq
  rcases hr : r.Spec.Guest.Settings with _ | s
  · rw [hr] at hnew; cases hnew
  · rcases hb : b.Spec.Guest.Settings with _ | t
    · rw [hr, hb] at heq; cases heq
    · rfl

theorem option_orElse_eq_none {α : Type} (a b : Option α) :
    (a <|> b) = none ↔ a = none ∧ b = none := by
  cases a <;> simp

theorem createCpuRangeCheck_none_iff (c : CPUs) :
    createCpuRangeCheck c = none ↔ c.Min ≤ c.Use ∧ c.Use ≤ c.Max := by
  unfold createCpuRangeCheck
  by_cases h1 : c.Use < c.Min <;> by_cases h2 : c.Use > c.Max <;>
    simp [h1, h2] <;> omega

theorem updateCpuRangeCheck_none_iff (c : CPUs) :
    updateCpuRangeCheck c = none ↔ c.Min ≤ c.Use ∧ c.Use ≤ c.Max := by
  unfold updateCpuRangeCheck
  by_cases h1 : c.Use < c.Min <;> by_cases h2 : c.Use > c.Max <;>
    simp [h1, h2] <;> omega

theorem createMemorySlotsRangeCheck_none_iff (m : MemorySlots) :
    createMemorySlotsRangeCheck m = none ↔ m.Min ≤ m.Use ∧ m.Use ≤ m.Max := by
  unfold createMemorySlotsRangeCheck
  by_cases h1 : m.Use < m.Min <;> by_cases h2 : m.Use > m.Max <;>
    simp [h1, h2] <;> omega

theorem updateMemorySlotsRangeCheck_none_iff (m : MemorySlots) :
    updateMemorySlotsRangeCheck m = none ↔ m.Min ≤ m.Use ∧ m.Use ≤ m.Max := by
  unfold updateMemorySlotsRangeCheck
  by_cases h1 : m.Use < m.Min <;> by_cases h2 : m.Use > m.Max <;>
    simp [h1, h2] <;> omega

theorem updateCpuRangeCheck_some {c : CPUs} {e : VmError}
    (h : updateCpuRangeCheck c = some e) :
    e = .updCpuUseBelowMin c.Use c.Min ∨ e = .updCpuUseAboveMax c.Use c.Max := by
  unfold updateCpuRangeCheck at h
  split at h
  · exact Or.inl (Option.some.inj h).symm
  · split at h
    · exact Or.inr (Option.some.inj h).symm
    · cases h

theorem updateMemorySlotsRangeCheck_some {m : MemorySlots} {e : VmError}
    (h : updateMemorySlotsRangeCheck m = some e) :
    e = .updMemorySlotsUseBelowMin m.Use m.Min ∨ e = .updMemorySlotsUseAboveMax m.Use m.Max := by
  unfold updateMemorySlotsRangeCheck at h
  split at h
  · exact Or.inl (Option.some.inj h).symm
  · split at h
    · exact Or.inr (Option.some.inj h).symm
    · cases h

theorem updateUseChecks_not_immutable {v : VirtualMachine} {e : VmError}
    (h : updateUseChecks v = some e) :
    (∀ p, e ≠ .immutableField p) ∧ e ≠ .swapImmutable := by
  unfold updateUseChecks at h
  rcases hc : updateCpuRangeCheck v.Spec.Guest.CPUs with _ | ec
  · rcases hm : updateMemorySlotsRangeCheck v.Spec.Guest.MemorySlots with _ | em
    · rw [hc, hm] at h; cases h
    · rw [hc, hm] at h
      have he : em = e := Option.some.inj (by simpa using h)
      subst he
      rcases updateMemorySlotsRangeCheck_some hm with h' | h' <;> subst h' <;>
        exact ⟨fun p h'' => VmError.noConfusion h'', fun h'' => VmError.noConfusion h''⟩
  · rw [hc] at h
    have he : ec = e := Option.some.inj (by simpa using h)
    subst he
    rcases updateCpuRangeCheck_some hc with h' | h' <;> subst h' <;>
      exact ⟨fun p h'' => VmError.noConfusion h'', fun h'' => VmError.noConfusion h''⟩

theorem immutableLoop_isSome {fields : List (String × (VirtualMachine → FieldValue))}
    (r b : VirtualMachine) : immutableLoop fields r (some b) ≠ none := by
  induction fields with
  | nil => simp [immutableLoop]
  | cons info rest ih =>
    unfold immutableLoop
    by_cases hc : info.2 r = info.2 b
    · simpa [hc] using ih
    · simp [hc]

/-- C4: for every (min, use, max) triple with min ≤ max, the CPU and
memory-slot range checks of ValidateCreate and of the re-check at the end
of ValidateUpdate accept exactly when min ≤ use ≤ max (both bounds
inclusive); use = min - 1 and use = max + 1 are rejected. -/
theorem claim_C4_range_invariant :
    (∀ c : CPUs, c.Min ≤ c.Max →
      ((createCpuRangeCheck c = none ↔ c.Min ≤ c.Use ∧ c.Use ≤ c.Max) ∧
       (updateCpuRangeCheck c = none ↔ c.Min ≤ c.Use ∧ c.Use ≤ c.Max) ∧
       createCpuRangeCheck { c with Use := c.Min - 1 } ≠ none ∧
       createCpuRangeCheck { c with Use := c.Max + 1 } ≠ none ∧
       updateCpuRangeCheck { c with Use := c.Min - 1 } ≠ none ∧
       updateCpuRangeCheck { c with Use := c.Max + 1 } ≠ none)) ∧
    (∀ m : MemorySlots, m.Min ≤ m.Max →
      ((createMemorySlotsRangeCheck m = none ↔ m.Min ≤ m.Use ∧ m.Use ≤ m.Max) ∧
       (updateMemorySlotsRangeCheck m = none ↔ m.Min ≤ m.Use ∧ m.Use ≤ m.Max) ∧
       createMemorySlotsRangeCheck { m with Use := m.Min - 1 } ≠ none ∧
       createMemorySlotsRangeCheck { m with Use := m.Max + 1 } ≠ none ∧
       updateMemorySlotsRangeCheck { m with Use := m.Min - 1 } ≠ none ∧
       updateMemorySlotsRangeCheck { m with Use := m.Max + 1 } ≠ none)) := by
  constructor
  · intro c _
    refine ⟨createCpuRangeCheck_none_iff c, updateCpuRangeCheck_none_iff c, ?_, ?_, ?_, ?_⟩ <;>
      · intro hEq
        first
          | rw [createCpuRangeCheck_none_iff] at hEq
          | rw [updateCpuRangeCheck_none_iff] at hEq
        dsimp only at hEq
        omega
  · intro m _
    refine ⟨createMemorySlotsRangeCheck_none_iff m, updateMemorySlotsRangeCheck_none_iff m, ?_, ?_, ?_, ?_⟩ <;>
      · intro hEq
        first
          | rw [createMemorySlotsRangeCheck_none_iff] at hEq
          | rw [updateMemorySlotsRangeCheck_none_iff] at hEq
        dsimp only at hEq
        omega

theorem claim_C4_witness :
    (createCpuRangeCheck ⟨1, 4, 2⟩ = none ↔ (1 : Int) ≤ 2 ∧ (2 : Int) ≤ 4) :=
  (claim_C4_range_invariant.1 ⟨1, 4, 2⟩ (by decide)).1

/-- Any disk in the list with a reserved name or an over-long name makes
the disk-name loop fail. -/
theorem createDiskNameCheck_bad {disks : List Disk} {d : Disk} (hd : d ∈ disks)
    (hbad : d.Name ∈ reservedDiskNames ∨ d.Name.utf8ByteSize > 32) :
    createDiskNameCheck disks ≠ none := by
  induction disks with
  | nil => cases hd
  | cons disk rest ih =>
    unfold createDiskNameCheck
    by_cases h1 : disk.Name ∈ reservedDiskNames
    · simp [h1]
    · by_cases h2 : disk.Name.utf8ByteSize > 32
      · simp [h1, h2]
      · rcases List.mem_cons.mp hd with hd' | hd'
        · subst hd'
          rcases hbad with hbad | hbad
          · exact absurd hbad h1
          · exact absurd hbad h2
        · simpa [h1, h2] using ih hd'

/-- C5 (amended): on create, a disk with a reserved name is rejected
regardless of its other fields, a disk whose name is longer than 32 UTF-8
bytes (Go `len`) is rejected, and a disk whose name is exactly 32 bytes of
non-reserved text passes the disk-name checks. -/
theorem claim_C5_disk_names :
    (∀ (memCheck : MemoryProvider → Guest → Option String) (r : VirtualMachine) (d : Disk),
      d ∈ r.Spec.Disks → d.Name ∈ reservedDiskNames → (ValidateCreate memCheck r).2 ≠ none) ∧
    (∀ (memCheck : MemoryProvider → Guest → Option String) (r : VirtualMachine) (d : Disk),
      d ∈ r.Spec.Disks → d.Name.utf8ByteSize > 32 → (ValidateCreate memCheck r).2 ≠ none) ∧
    (∀ d : Disk, d.Name ∉ reservedDiskNames → d.Name.utf8ByteSize = 32 →
      createDiskNameCheck [d] = none) := by
  have main : ∀ (memCheck : MemoryProvider → Guest → Option String) (r : VirtualMachine) (d : Disk),
      d ∈ r.Spec.Disks → (d.Name ∈ reservedDiskNames ∨ d.Name.utf8ByteSize > 32) →
      (ValidateCreate memCheck r).2 ≠ none := by
    intro memCheck r d hd hbad
    have hdisks := createDiskNameCheck_bad hd hbad
    unfold ValidateCreate
    split
    · simp
    · rename_i hchain
      rw [option_orElse_eq_none, option_orElse_eq_none, option_orElse_eq_none,
          option_orElse_eq_none, option_orElse_eq_none] at hchain
      exact absurd hchain.2.2.2.1 hdisks
  refine ⟨fun mc r d hd hres => main mc r d hd (Or.inl hres),
          fun mc r d hd hlen => main mc r d hd (Or.inr hlen), ?_⟩
  intro d hres hlen
  simp [createDiskNameCheck, hres, hlen]

/-- C5 as stated fails on the code: a disk named with exactly 32
characters of non-reserved text (here 32 two-byte characters) is
rejected, because the source measures `len(disk.Name)` in bytes. -/
theorem claim_C5_counterexample :
    diskWide32.Name.length = 32 ∧ diskWide32.Name ∉ reservedDiskNames ∧
      createDiskNameCheck [diskWide32] ≠ none := by
  refine ⟨by decide, by decide, by decide⟩

theorem claim_C5_witness : createDiskNameCheck [disk32] = none :=
  claim_C5_disk_names.2.2 disk32 (by decide) (by decide)

/-- C7: on create, guest settings with both the legacy `Swap` field and
the structured `SwapInfo` field set are rejected with the
conflicting-swap error; settings with at most one of the two set (or nil
settings) pass the swap mutual-exclusivity check, and a spec with both
set is rejected by `ValidateCreate`. -/
theorem claim_C7_swap_exclusivity :
    (∀ s : GuestSettings, s.Swap.isSome = true → s.SwapInfo.isSome = true →
      createSwapCheck (some s) = some .conflictingSwap) ∧
    (∀ s : GuestSettings, s.Swap = none ∨ s.SwapInfo = none →
      createSwapCheck (some s) = none) ∧
    createSwapCheck none = none ∧
    (∀ (memCheck : MemoryProvider → Guest → Option String) (r : VirtualMachine)
       (s : GuestSettings), r.Spec.Guest.Settings = some s →
      s.Swap.isSome = true → s.SwapInfo.isSome = true →
      (ValidateCreate memCheck r).2 ≠ none) := by
  have hcheck : ∀ s : GuestSettings, s.Swap.isSome = true → s.SwapInfo.isSome = true →
      createSwapCheck (some s) = some .conflictingSwap := by
    intro s h1 h2
    simp [createSwapCheck, h1, h2]
  refine ⟨hcheck, ?_, rfl, ?_⟩
  · intro s h
    rcases h with h | h <;> simp [createSwapCheck, h]
  · intro memCheck r s hs h1 h2
    unfold ValidateCreate
    split
    · simp
    · rename_i hchain
      rw [option_orElse_eq_none, option_orElse_eq_none, option_orElse_eq_none,
          option_orElse_eq_none, option_orElse_eq_none] at hchain
      have := hchain.2.2.2.2.2
      rw [hs, hcheck s h1 h2] at this
      cases this

theorem claim_C7_witness :
    createSwapCheck (some ⟨some 1024, some ⟨1024⟩⟩) = some .conflictingSwap :=
  claim_C7_swap_exclusivity.1 ⟨some 1024, some ⟨1024⟩⟩ (by decide) (by decide)

/-- C9: all three webhook entry points return nil warnings on every
input and on every accepting or rejecting path; `ValidateUpdate` either
panics or returns nil warnings. -/
theorem claim_C9_no_warnings :
    (∀ (memCheck : MemoryProvider → Guest → Option String) (r : VirtualMachine),
      (ValidateCreate memCheck r).1 = []) ∧
    (∀ (r : VirtualMachine) (old : Option VirtualMachine),
      ValidateUpdate r old = .panics ∨
        ∃ e, ValidateUpdate r old = .returns [] e) ∧
    (∀ r : VirtualMachine, (ValidateDelete r).1 = []) := by
  refine ⟨?_, ?_, fun _ => rfl⟩
  · intro memCheck r
    unfold ValidateCreate
    split <;> rfl
  · intro r old
    unfold ValidateUpdate updateSwapStep
    repeat' split
    all_goals first
      | exact Or.inl rfl
      | exact Or.inr ⟨_, rfl⟩

/-- C10: `ValidateUpdate` ignores the result of the type assertion on its
old argument; when the assertion fails (`before == nil`), evaluating the
immutable-field table dereferences a nil pointer (a panic) rather than
returning an error. -/
theorem claim_C10_nil_old_panics :
    ∀ r : VirtualMachine, ValidateUpdate r none = UpdateResult.panics := by
  intro r
  rfl

/-- C2: if any protected field of the immutability table differs between
old and new, `ValidateUpdate` rejects with an error naming a differing
field path followed by " is immutable"; changing `.spec.guest.cpus.max`
from 4 to 8 is rejected naming exactly that path, and changing only
`.spec.guest.cpus.use` from 2 to 3 within bounds is accepted. -/
theorem claim_C2_immutability :
    (∀ r b : VirtualMachine, (∃ f ∈ immutableFields, f.2 r ≠ f.2 b) →
      ∃ f ∈ immutableFields, f.2 r ≠ f.2 b ∧
        ValidateUpdate r (some b) = .returns [] (some (.immutableField f.1))) ∧
    (∀ p : String, (VmError.immutableField p).message = p ++ " is immutable") ∧
    ValidateUpdate vmCpuMax8 (some sampleVM) =
      .returns [] (some (.immutableField ".spec.guest.cpus.max")) ∧
    ValidateUpdate vmCpuUse3 (some sampleVM) = .returns [] none := by
  refine ⟨?_, fun p => rfl, by decide, by decide⟩
  intro r b h
  rcases immutableLoop_first_diff h with ⟨f, hf, hne, hloop⟩
  exact ⟨f, hf, hne, by simp [ValidateUpdate, hloop]⟩

theorem claim_C2_witness :
    ∃ f ∈ immutableFields, f.2 vmCpuMax8 ≠ f.2 sampleVM ∧
      ValidateUpdate vmCpuMax8 (some sampleVM) = .returns [] (some (.immutableField f.1)) :=
  claim_C2_immutability.1 vmCpuMax8 sampleVM (by decide)

/-- C3: the memory-provider tag is in the protected field set: any update
that changes it is rejected with an immutable-field error, and when the
four earlier table entries are unchanged the error names exactly
`.spec.guest.memoryProvider`. -/
theorem claim_C3_memory_provider_immutable :
    (∀ r b : VirtualMachine,
      r.Spec.Guest.MemoryProvider ≠ b.Spec.Guest.MemoryProvider →
      ∃ p, ValidateUpdate r (some b) = .returns [] (some (.immutableField p))) ∧
    (∀ r b : VirtualMachine,
      r.Spec.Guest.MemoryProvider ≠ b.Spec.Guest.MemoryProvider →
      r.Spec.Guest.CPUs.Min = b.Spec.Guest.CPUs.Min →
      r.Spec.Guest.CPUs.Max = b.Spec.Guest.CPUs.Max →
      r.Spec.Guest.MemorySlots.Min = b.Spec.Guest.MemorySlots.Min →
      r.Spec.Guest.MemorySlots.Max = b.Spec.Guest.MemorySlots.Max →
      ValidateUpdate r (some b) =
        .returns [] (some (.immutableField ".spec.guest.memoryProvider"))) := by
  constructor
  · intro r b hne
    have hdiff : ∃ f ∈ immutableFields, f.2 r ≠ f.2 b :=
      ⟨(".spec.guest.memoryProvider",
        fun v => .optMemoryProvider v.Spec.Guest.MemoryProvider),
       by simp [immutableFields], by simpa using hne⟩
    rcases immutableLoop_first_diff hdiff with ⟨f, hf, hne', hloop⟩
    exact ⟨f.1, by simp [ValidateUpdate, hloop]⟩
  · intro r b hne h1 h2 h3 h4
    have hloop : immutableLoop immutableFields r (some b) =
        some (some (.immutableField ".spec.guest.memoryProvider")) := by
      unfold immutableFields
      simp [immutableLoop, h1, h2, h3, h4, hne]
    simp [ValidateUpdate, hloop]

theorem claim_C3_witness :
    ValidateUpdate vmDimm (some sampleVM) =
      .returns [] (some (.immutableField ".spec.guest.memoryProvider")) :=
  claim_C3_memory_provider_immutable.2 vmDimm sampleVM (by decide) rfl rfl rfl rfl

/-- C6: if the swap-transition step is reached with non-nil new settings,
the old settings are non-nil as well (nil and non-nil settings never pass
the masked immutability comparison), so `ValidateUpdate` on a
successfully-asserted old object never dereferences a nil settings
object: it never panics. -/
theorem claim_C6_no_nil_settings_deref :
    (∀ r b : VirtualMachine,
      immutableLoop immutableFields r (some b) = some none →
      r.Spec.Guest.Settings.isSome = true → b.Spec.Guest.Settings.isSome = true) ∧
    (∀ r b : VirtualMachine, ValidateUpdate r (some b) ≠ UpdateResult.panics) := by
  refine ⟨fun r b h hnew => settings_isSome_of_loop_passed h hnew, ?_⟩
  intro r b h
  unfold ValidateUpdate at h
  cases hl : immutableLoop immutableFields r (some b) with
  | none => exact immutableLoop_isSome r b hl
  | some o =>
    cases o with
    | some e => simp only [hl] at h; exact UpdateResult.noConfusion h
    | none =>
      simp only [hl] at h
      unfold updateSwapStep at h
      rcases hs : r.Spec.Guest.Settings with _ | ns
      · simp only [hs] at h; exact UpdateResult.noConfusion h
      · simp only [hs] at h
        rcases hg : ns.GetSwapInfo with e | ni
        · simp only [hg] at h; exact UpdateResult.noConfusion h
        · simp only [hg] at h
          have hb : b.Spec.Guest.Settings.isSome = true :=
            settings_isSome_of_loop_passed hl (by simp [hs])
          rcases hbs : b.Spec.Guest.Settings with _ | os
          · rw [hbs] at hb; cases hb
          · simp only [hbs] at h
            rcases ho : os.GetSwapInfo with e' | oi
            · simp only [ho] at h; exact UpdateResult.noConfusion h
            · simp only [ho] at h
              by_cases hne : ni ≠ oi
              · simp only [if_pos hne] at h; exact UpdateResult.noConfusion h
              · simp only [if_neg hne] at h; exact UpdateResult.noConfusion h

theorem claim_C6_witness : vmSwapA.Spec.Guest.Settings.isSome = true :=
  claim_C6_no_nil_settings_deref.1 vmSwapB vmSwapA (by decide) rfl

/-- C8: validating a spec against itself never produces an immutability
error: every error returned by `ValidateUpdate v (some v)` is neither an
immutable-field error nor the swap-immutability error. -/
theorem claim_C8_self_update_no_immutability_error :
    ∀ (v : VirtualMachine) (w : List String) (e : VmError),
      ValidateUpdate v (some v) = .returns w (some e) →
      (∀ p, e ≠ .immutableField p) ∧ e ≠ .swapImmutable := by
  intro v w e h
  unfold ValidateUpdate at h
  rw [immutableLoop_refl] at h
  simp only [] at h
  unfold updateSwapStep at h
  rcases hs : v.Spec.Guest.Settings with _ | ns
  · simp only [hs] at h
    have h2 : updateUseChecks v = some e := (UpdateResult.returns.inj h).2
    exact updateUseChecks_not_immutable h2
  · simp only [hs] at h
    rcases hg : ns.GetSwapInfo with e0 | ni
    · simp only [hg] at h
      have h2 : e0 = e := Option.some.inj (UpdateResult.returns.inj h).2
      have h3 := getSwapInfo_error_eq hg
      subst h2; subst h3
      exact ⟨fun p h' => VmError.noConfusion h', fun h' => VmError.noConfusion h'⟩
    · simp only [hg] at h
      simp only [ne_eq, not_true_eq_false, if_false, ite_self] at h
      have h2 : updateUseChecks v = some e := (UpdateResult.returns.inj h).2
      exact updateUseChecks_not_immutable h2

theorem claim_C8_witness :
    (∀ p, VmError.updCpuUseAboveMax 9 4 ≠ .immutableField p) ∧
      VmError.updCpuUseAboveMax 9 4 ≠ .swapImmutable :=
  claim_C8_self_update_no_immutability_error vmCpuUse9 [] (.updCpuUseAboveMax 9 4) (by decide)

/-- C1: with non-nil new guest settings and the immutability table
passed, the swap-transition step of `ValidateUpdate` propagates a
new-side derivation error, swallows an old-side derivation error
(self-healing, proceeding to the use re-checks), and otherwise rejects
with the swap-immutability error exactly when the two derived descriptors
differ. -/
theorem claim_C1_swap_transition :
    ∀ (r b : VirtualMachine) (ns : GuestSettings),
      r.Spec.Guest.Settings = some ns →
      immutableLoop immutableFields r (some b) = some none →
      ((∀ e, ns.GetSwapInfo = .error e →
          ValidateUpdate r (some b) = .returns [] (some e)) ∧
       (∀ ni, ns.GetSwapInfo = .ok ni →
         ∃ os, b.Spec.Guest.Settings = some os ∧
           ((∀ e, os.GetSwapInfo = .error e →
               ValidateUpdate r (some b) = .returns [] (updateUseChecks r)) ∧
            (∀ oi, os.GetSwapInfo = .ok oi →
               (ni ≠ oi →
                 ValidateUpdate r (some b) = .returns [] (some .swapImmutable)) ∧
               (ni = oi →
                 ValidateUpdate r (some b) = .returns [] (updateUseChecks r)))))) := by
  intro r b ns hs hloop
  have hvu : ValidateUpdate r (some b) = updateSwapStep r (some b) := by
    simp [ValidateUpdate, hloop]
  constructor
  · intro e hg
    rw [hvu]
    simp [updateSwapStep, hs, hg]
  · intro ni hg
    have hb : b.Spec.Guest.Settings.isSome = true :=
      settings_isSome_of_loop_passed hloop (by simp [hs])
    rcases hbs : b.Spec.Guest.Settings with _ | os
    · rw [hbs] at hb; cases hb
    · refine ⟨os, rfl, ?_, ?_⟩
      · intro e ho
        rw [hvu]
        simp [updateSwapStep, hs, hg, hbs, ho]
      · intro oi ho
        constructor
        · intro hne
          rw [hvu]
          simp [updateSwapStep, hs, hg, hbs, ho, hne]
        · intro heq
          subst heq
          rw [hvu]
          simp [updateSwapStep, hs, hg, hbs, ho]

theorem claim_C1_witness :
    ∃ os, vmSwapA.Spec.Guest.Settings = some os ∧
      ((∀ e, os.GetSwapInfo = .error e →
          ValidateUpdate vmSwapB (some vmSwapA) = .returns [] (updateUseChecks vmSwapB)) ∧
       (∀ oi, os.GetSwapInfo = .ok oi →
          ((some ⟨2048⟩ : SwapDescriptor) ≠ oi →
            ValidateUpdate vmSwapB (some vmSwapA) = .returns [] (some .swapImmutable)) ∧
          ((some ⟨2048⟩ : SwapDescriptor) = oi →
            ValidateUpdate vmSwapB (some vmSwapA) = .returns [] (updateUseChecks vmSwapB)))) :=
  (claim_C1_swap_transition vmSwapB vmSwapA ⟨none, some ⟨2048⟩⟩ rfl (by decide)).2
    (some ⟨2048⟩) rfl
